import Mathlib

/-!
# Verification of the arcball `RotationController` (src/src/RotationController.js)

Shallow embedding of the rotation controller over exact real arithmetic.
JavaScript numbers are modelled as `ℝ`; the three.js math helpers the code
calls (`Vector3.cross/dot/length/normalize`, `Quaternion.setFromAxisAngle`,
`Quaternion.multiplyQuaternions`, `Quaternion.setFromEuler` /
`Euler.setFromQuaternion` in `XYZ` order) are embedded from their standard
three.js implementations.  The controller's mutable fields become a `State`
record, each method becomes a state-transition function, and the two
observable external effects (live `setInterval` instances and invocations
of the `onRender` callback) are tracked by the counters `orphanedTimers`
and `renderCount`.
-/

set_option autoImplicit false

open Real

noncomputable section

namespace RotationController

/-- `THREE.Vector3`: a 3-component real vector. -/
structure Vec3 where
  x : ℝ
  y : ℝ
  z : ℝ
  deriving DecidableEq

namespace Vec3

/-- `THREE.Vector3.prototype.dot`. -/
def dot (a b : Vec3) : ℝ := a.x * b.x + a.y * b.y + a.z * b.z

/-- `THREE.Vector3.prototype.cross` / `crossVectors`. -/
def cross (a b : Vec3) : Vec3 :=
  ⟨a.y * b.z - a.z * b.y, a.z * b.x - a.x * b.z, a.x * b.y - a.y * b.x⟩

/-- `THREE.Vector3.prototype.length`. -/
def length (a : Vec3) : ℝ := Real.sqrt (a.x * a.x + a.y * a.y + a.z * a.z)

/-- `THREE.Vector3.prototype.normalize`: divides by the length, or by `1`
when the length is `0` (three.js uses `this.length() || 1`). -/
def normalize (a : Vec3) : Vec3 :=
  let l := if a.length = 0 then 1 else a.length
  ⟨a.x / l, a.y / l, a.z / l⟩

/-- The zero vector `new THREE.Vector3(0, 0, 0)`. -/
def zero : Vec3 := ⟨0, 0, 0⟩

end Vec3

/-- `THREE.Quaternion`: components `x, y, z, w`. -/
structure Quat where
  x : ℝ
  y : ℝ
  z : ℝ
  w : ℝ
  deriving DecidableEq

namespace Quat

/-- The identity quaternion `new THREE.Quaternion()` = `(0,0,0,1)`. -/
def one : Quat := ⟨0, 0, 0, 1⟩

/-- `THREE.Quaternion.prototype.multiplyQuaternions(a, b)` (Hamilton product). -/
def mul (a b : Quat) : Quat :=
  ⟨a.x * b.w + a.w * b.x + a.y * b.z - a.z * b.y,
   a.y * b.w + a.w * b.y + a.z * b.x - a.x * b.z,
   a.z * b.w + a.w * b.z + a.x * b.y - a.y * b.x,
   a.w * b.w - a.x * b.x - a.y * b.y - a.z * b.z⟩

/-- `THREE.Quaternion.prototype.setFromAxisAngle(axis, angle)`; three.js
documents that `axis` is assumed to be normalized but does not check it. -/
def setFromAxisAngle (axis : Vec3) (angle : ℝ) : Quat :=
  let halfAngle := angle / 2
  let s := Real.sin halfAngle
  ⟨axis.x * s, axis.y * s, axis.z * s, Real.cos halfAngle⟩

/-- Squared norm of a quaternion. -/
def normSq (q : Quat) : ℝ := q.x * q.x + q.y * q.y + q.z * q.z + q.w * q.w

end Quat

/-- `Math.max(-1, Math.min(1, d))` — the clamp applied before `Math.acos`. -/
def clamp1 (d : ℝ) : ℝ := max (-1) (min 1 d)

/-- `THREE.MathUtils.degToRad`. -/
def degToRad (d : ℝ) : ℝ := d * (π / 180)

/-- `THREE.MathUtils.radToDeg`. -/
def radToDeg (r : ℝ) : ℝ := r * (180 / π)

/-- The momentum `anglePackage` captured by the `setInterval` closure in
`endDrag`: `{ radiansBegin, radians }`. -/
structure AnglePkg where
  radiansBegin : ℝ
  radians : ℝ
  deriving DecidableEq

/-- The mutable fields of a `RotationController` instance, together with the
orientation of the external `model` target and two effect counters:
`orphanedTimers` counts `setInterval` instances whose handle was overwritten
without `clearInterval` (they can never be stopped again), and `renderCount`
counts invocations of the `onRender` callback.  `momentum` is `some pkg`
exactly when `rotationTimer !== null`, holding the captured `anglePackage`. -/
structure State where
  viewWidth : ℝ
  viewHeight : ℝ
  kRotationRate : ℝ
  kRotationDecelerationRate : ℝ
  startVector : Vec3
  isDragging : Bool
  momentum : Option AnglePkg
  ballCenterX : ℝ
  ballCenterY : ℝ
  ballRadius : ℝ
  quaternion : Quat
  quaternionTouchDown : Quat
  angleOfRotation : ℝ
  axisOfRotation : Vec3
  modelQuaternion : Quat
  orphanedTimers : ℕ
  renderCount : ℕ

/-- The constructor: view bounds from the canvas, constants `1/30` and
`1/60`, zero start vector, not dragging, no timer, ball center `(0,0)`,
ball radius `1`, both quaternion slots cloned from the model's rotation,
zero angle and axis of rotation. -/
def initState (width height : ℝ) (modelQ : Quat) : State :=
  { viewWidth := width
    viewHeight := height
    kRotationRate := 1 / 30
    kRotationDecelerationRate := 1 / 60
    startVector := Vec3.zero
    isDragging := false
    momentum := none
    ballCenterX := 0
    ballCenterY := 0
    ballRadius := 1
    quaternion := modelQ
    quaternionTouchDown := modelQ
    angleOfRotation := 0
    axisOfRotation := Vec3.zero
    modelQuaternion := modelQ
    orphanedTimers := 0
    renderCount := 0 }

/-- `locationInBallCoordinates(screenLocation)`: normalize to `[-1,1]` using
the larger view dimension as common scale, flip `y`. -/
def locationInBallCoordinates (s : State) (p : ℝ × ℝ) : ℝ × ℝ :=
  let ballBBoxSizeScreenCoordinates := max s.viewWidth s.viewHeight
  let lx := (2 * (p.1 - 0) / s.viewWidth - 1) * (s.viewWidth / ballBBoxSizeScreenCoordinates)
  let ly := (2 * (p.2 - 0) / s.viewHeight - 1) * (s.viewHeight / ballBBoxSizeScreenCoordinates) * (-1)
  (lx, ly)

/-- `ballLocationInCameraSpaceXYPlane(screenLocation)`. -/
def ballLocationInCameraSpaceXYPlane (s : State) (p : ℝ × ℝ) : Vec3 :=
  let lic := locationInBallCoordinates s p
  let bx := (lic.1 - s.ballCenterX) / s.ballRadius
  let by' := (lic.2 - s.ballCenterY) / s.ballRadius
  let magnitude := bx * bx + by' * by'
  if magnitude > 1 then
    let scale := 1 / Real.sqrt magnitude
    ⟨bx * scale, by' * scale, 0⟩
  else
    ⟨bx, by', Real.sqrt (1 - magnitude)⟩

/-- `ballLocationInCameraSpaceXZPlane(screenLocation)`. -/
def ballLocationInCameraSpaceXZPlane (s : State) (p : ℝ × ℝ) : Vec3 :=
  let lic := locationInBallCoordinates s p
  let bx := (lic.1 - s.ballCenterX) / s.ballRadius
  let bz := (lic.2 - s.ballCenterY) / s.ballRadius
  let magnitude := bx * bx + bz * bz
  if magnitude > 1 then
    let scale := 1 / Real.sqrt magnitude
    ⟨bx * scale, 0, bz * scale⟩
  else
    ⟨bx, -Real.sqrt (1 - magnitude), bz⟩

/-- `beginDrag(screenLocation)`: clear the referenced interval if any, set
`isDragging`, store the start vector from the XY-plane projection. -/
def beginDrag (s : State) (p : ℝ × ℝ) : State :=
  { s with momentum := none
           isDragging := true
           startVector := ballLocationInCameraSpaceXYPlane s p }

/-- `updateDrag(screenLocation)`: writes `angleOfRotation` and
`axisOfRotation` (the raw cross product) first; if the cross product's
length is below `0.0001` it returns with no further effect; otherwise it
normalizes the axis in place, builds the drag quaternion, left-multiplies it
onto `quaternionTouchDown`, writes the result to `quaternion` and to the
model, and fires `onRender`. -/
def updateDrag (s : State) (p : ℝ × ℝ) : State :=
  let endVector := ballLocationInCameraSpaceXYPlane s p
  let angle := Real.arccos (clamp1 (s.startVector.dot endVector))
  let axis := s.startVector.cross endVector
  let s1 := { s with angleOfRotation := angle, axisOfRotation := axis }
  if axis.length < 0.0001 then
    s1
  else
    let axisN := axis.normalize
    let quaternionDrag := Quat.setFromAxisAngle axisN angle
    let q := quaternionDrag.mul s1.quaternionTouchDown
    { s1 with axisOfRotation := axisN
              quaternion := q
              modelQuaternion := q
              renderCount := s1.renderCount + 1 }

/-- `endDrag(velocityInView, locationInView)`: clear `isDragging`, commit
`quaternion` into `quaternionTouchDown`; bail out below the `0.1` velocity
threshold or the `0.001` radians threshold; otherwise store a fresh
`anglePackage` and `setInterval` a new timer.  The assignment
`this.rotationTimer = setInterval(...)` overwrites any existing handle:
when a timer was already running it keeps running but becomes orphaned. -/
def endDrag (s : State) (velocity location : ℝ × ℝ) : State :=
  let s1 := { s with isDragging := false, quaternionTouchDown := s.quaternion }
  let velocityMagnitude := Real.sqrt (velocity.1 * velocity.1 + velocity.2 * velocity.2)
  if velocityMagnitude < 0.1 then
    s1
  else
    let xx := s1.kRotationRate * velocity.1 + location.1
    let yy := s1.kRotationRate * velocity.2 + location.2
    let a := ballLocationInCameraSpaceXYPlane s1 location
    let b := ballLocationInCameraSpaceXYPlane s1 (xx, yy)
    let radians := Real.arccos (clamp1 (a.dot b))
    if radians < 0.001 then
      s1
    else
      { s1 with momentum := some ⟨radians, radians⟩
                orphanedTimers :=
                  s1.orphanedTimers + (if s1.momentum.isSome then 1 else 0) }

/-- `rotationTimerHandler(anglePackage)`: one tick of the momentum interval.
Only meaningful while a timer is live (`momentum = some pkg`); with
`momentum = none` no callback runs and the state is unchanged.  When
`radians < 0` the interval is cleared; otherwise `radians` is decremented by
`kRotationDecelerationRate * radiansBegin`, a quaternion is built from the
stored `axisOfRotation` and the updated angle, left-multiplied onto
`quaternionTouchDown`, written to `quaternion` and the model, the touch-down
snapshot is advanced, and `onRender` fires. -/
def tick (s : State) : State :=
  match s.momentum with
  | none => s
  | some pkg =>
    if pkg.radians < 0 then
      { s with momentum := none }
    else
      let updated := pkg.radians - s.kRotationDecelerationRate * pkg.radiansBegin
      let quaternionDrag := Quat.setFromAxisAngle s.axisOfRotation updated
      let q := quaternionDrag.mul s.quaternionTouchDown
      { s with momentum := some ⟨pkg.radiansBegin, updated⟩
               quaternion := q
               modelQuaternion := q
               quaternionTouchDown := q
               renderCount := s.renderCount + 1 }

/-- `stopDrag()`: clear the drag flag, clear the referenced interval if any,
reset the start vector to zero. -/
def stopDrag (s : State) : State :=
  { s with isDragging := false, momentum := none, startVector := Vec3.zero }

/-- `reshape(viewBounds)`. -/
def reshape (s : State) (width height : ℝ) : State :=
  { s with viewWidth := width, viewHeight := height }

/-- `isCurrentlyDragging()`. -/
def isCurrentlyDragging (s : State) : Bool :=
  s.isDragging || s.momentum.isSome

/-- `rotateClockwise(degrees)` (default `10`): left-multiply a quaternion
about the world Y axis by `-degrees` onto the model's current orientation,
then copy into both internal quaternion slots and fire `onRender`. -/
def rotateClockwise (s : State) (degrees : ℝ) : State :=
  let q := (Quat.setFromAxisAngle ⟨0, 1, 0⟩ (degToRad (-degrees))).mul s.modelQuaternion
  { s with modelQuaternion := q, quaternion := q, quaternionTouchDown := q,
           renderCount := s.renderCount + 1 }

/-- `rotateCounterclockwise(degrees)` (default `10`). -/
def rotateCounterclockwise (s : State) (degrees : ℝ) : State :=
  let q := (Quat.setFromAxisAngle ⟨0, 1, 0⟩ (degToRad degrees)).mul s.modelQuaternion
  { s with modelQuaternion := q, quaternion := q, quaternionTouchDown := q,
           renderCount := s.renderCount + 1 }

/-- `nudgePitchUp(degrees)` (default `5`): world X axis, `+degrees`. -/
def nudgePitchUp (s : State) (degrees : ℝ) : State :=
  let q := (Quat.setFromAxisAngle ⟨1, 0, 0⟩ (degToRad degrees)).mul s.modelQuaternion
  { s with modelQuaternion := q, quaternion := q, quaternionTouchDown := q,
           renderCount := s.renderCount + 1 }

/-- `nudgePitchDown(degrees)` (default `5`): world X axis, `-degrees`. -/
def nudgePitchDown (s : State) (degrees : ℝ) : State :=
  let q := (Quat.setFromAxisAngle ⟨1, 0, 0⟩ (degToRad (-degrees))).mul s.modelQuaternion
  { s with modelQuaternion := q, quaternion := q, quaternionTouchDown := q,
           renderCount := s.renderCount + 1 }

/-- `nudgeRoll(degrees)` (default `5`): world Z axis, `+degrees`. -/
def nudgeRoll (s : State) (degrees : ℝ) : State :=
  let q := (Quat.setFromAxisAngle ⟨0, 0, 1⟩ (degToRad degrees)).mul s.modelQuaternion
  { s with modelQuaternion := q, quaternion := q, quaternionTouchDown := q,
           renderCount := s.renderCount + 1 }

/-- `THREE.Quaternion.prototype.setFromEuler` with order `XYZ`. -/
def quatFromEulerXYZ (x y z : ℝ) : Quat :=
  let c1 := Real.cos (x / 2)
  let c2 := Real.cos (y / 2)
  let c3 := Real.cos (z / 2)
  let s1 := Real.sin (x / 2)
  let s2 := Real.sin (y / 2)
  let s3 := Real.sin (z / 2)
  ⟨s1 * c2 * c3 + c1 * s2 * s3,
   c1 * s2 * c3 - s1 * c2 * s3,
   c1 * c2 * s3 + s1 * s2 * c3,
   c1 * c2 * c3 - s1 * s2 * s3⟩

/-- Entry `m11` of `THREE.Matrix4.makeRotationFromQuaternion` (unit scale),
written with `x2 = x + x` doublings as in the three.js source. -/
def m11 (q : Quat) : ℝ := 1 - (q.y * (q.y + q.y) + q.z * (q.z + q.z))

/-- Entry `m12` of the rotation matrix of `q`. -/
def m12 (q : Quat) : ℝ := q.x * (q.y + q.y) - q.w * (q.z + q.z)

/-- Entry `m13` of the rotation matrix of `q`. -/
def m13 (q : Quat) : ℝ := q.x * (q.z + q.z) + q.w * (q.y + q.y)

/-- Entry `m22` of the rotation matrix of `q`. -/
def m22 (q : Quat) : ℝ := 1 - (q.x * (q.x + q.x) + q.z * (q.z + q.z))

/-- Entry `m23` of the rotation matrix of `q`. -/
def m23 (q : Quat) : ℝ := q.y * (q.z + q.z) - q.w * (q.x + q.x)

/-- Entry `m32` of the rotation matrix of `q`. -/
def m32 (q : Quat) : ℝ := q.y * (q.z + q.z) + q.w * (q.x + q.x)

/-- Entry `m33` of the rotation matrix of `q`. -/
def m33 (q : Quat) : ℝ := 1 - (q.x * (q.x + q.x) + q.y * (q.y + q.y))

/-- `Math.atan2(y, x)` (signed zeros ignored). -/
def atan2 (y x : ℝ) : ℝ :=
  if 0 < x then Real.arctan (y / x)
  else if x < 0 then
    (if 0 ≤ y then Real.arctan (y / x) + π else Real.arctan (y / x) - π)
  else
    (if 0 < y then π / 2 else if y < 0 then -(π / 2) else 0)

/-- `THREE.Euler.prototype.setFromQuaternion` with order `XYZ`: build the
rotation matrix of the quaternion and extract `(x, y, z)` angles. -/
def eulerXYZFromQuat (q : Quat) : ℝ × ℝ × ℝ :=
  let ey := Real.arcsin (clamp1 (m13 q))
  if |m13 q| < 0.9999999 then
    (atan2 (-(m23 q)) (m33 q), ey, atan2 (-(m12 q)) (m11 q))
  else
    (atan2 (m32 q) (m22 q), ey, 0)

/-- `setRotationEuler(x, y, z)`: absolute reset of the model orientation
from degrees in `XYZ` order, copied into both internal quaternion slots,
then `onRender` fires. -/
def setRotationEuler (s : State) (x y z : ℝ) : State :=
  let q := quatFromEulerXYZ (degToRad x) (degToRad y) (degToRad z)
  { s with modelQuaternion := q, quaternion := q, quaternionTouchDown := q,
           renderCount := s.renderCount + 1 }

/-- `getRotationEuler()`: a pure read of the model's quaternion as Euler
angles in degrees, `XYZ` order; it touches no controller state. -/
def getRotationEuler (s : State) : ℝ × ℝ × ℝ :=
  let e := eulerXYZFromQuat s.modelQuaternion
  (radToDeg e.1, radToDeg e.2.1, radToDeg e.2.2)

/-- The controller's public entry points, as an alphabet for reasoning
about arbitrary call sequences (a momentum interval firing is `tickOp`). -/
inductive Op where
  | beginDragOp (p : ℝ × ℝ)
  | updateDragOp (p : ℝ × ℝ)
  | endDragOp (v l : ℝ × ℝ)
  | tickOp
  | stopDragOp
  | reshapeOp (w h : ℝ)
  | setRotationEulerOp (x y z : ℝ)
  | rotateClockwiseOp (d : ℝ)
  | rotateCounterclockwiseOp (d : ℝ)
  | nudgePitchUpOp (d : ℝ)
  | nudgePitchDownOp (d : ℝ)
  | nudgeRollOp (d : ℝ)

/-- Interpretation of one public operation on the controller state. -/
def step (s : State) : Op → State
  | .beginDragOp p => beginDrag s p
  | .updateDragOp p => updateDrag s p
  | .endDragOp v l => endDrag s v l
  | .tickOp => tick s
  | .stopDragOp => stopDrag s
  | .reshapeOp w h => reshape s w h
  | .setRotationEulerOp x y z => setRotationEuler s x y z
  | .rotateClockwiseOp d => rotateClockwise s d
  | .rotateCounterclockwiseOp d => rotateCounterclockwise s d
  | .nudgePitchUpOp d => nudgePitchUp s d
  | .nudgePitchDownOp d => nudgePitchDown s d
  | .nudgeRollOp d => nudgeRoll s d

/-- Run a sequence of public operations from a starting state. -/
def run (s : State) : List Op → State
  | [] => s
  | o :: os => run (step s o) os

/-- Number of `setInterval` instances currently running for the controller:
orphaned ones (handle overwritten, never cleared) plus the one the
controller still references. -/
def liveTimers (s : State) : ℕ :=
  s.orphanedTimers + (if s.momentum.isSome then 1 else 0)

/-- A freshly constructed controller on a `2 × 2` canvas whose momentum
timer has just been started with `radiansBegin = radians = 1`. -/
def momentumDemoState : State :=
  { initState 2 2 Quat.one with momentum := some ⟨1, 1⟩ }

/-- A fresh controller on a `2 × 2` canvas with the identity model
orientation. On this canvas the screen point `(1,1)` is the ball center
(projecting to `(0,0,1)`) and `(2,1)` is the right edge (projecting to
`(1,0,0)`). -/
def demoS0 : State := initState 2 2 Quat.one

/-- `beginDrag` at the ball center. -/
def demoS1 : State := beginDrag demoS0 (1, 1)

/-- Then `updateDrag` to the right edge: a quarter-turn about `(0,1,0)`. -/
def demoS2 : State := updateDrag demoS1 (2, 1)

/-- Then `updateDrag` back to the exact starting point: the cross product is
zero, so this update takes the degenerate skip branch. -/
def demoS3 : State := updateDrag demoS2 (1, 1)

/-- `endDrag` on a fresh controller (no drag, no prior `updateDrag`) with
velocity `(30,0)` at the ball center: momentum starts with angle `π/2`
while `axisOfRotation` is still the zero vector from construction. -/
def demoEnd1 : State := endDrag demoS0 (30, 0) (1, 1)

/-- A second identical `endDrag` immediately after the first: `setInterval`
runs again and the first interval's handle is overwritten. -/
def demoEnd2 : State := endDrag demoEnd1 (30, 0) (1, 1)

/-- One momentum tick after `demoEnd1`: the rotation quaternion is built
from the zero `axisOfRotation`. -/
def demoTick1 : State := tick demoEnd1

end RotationController

namespace RotationController

/-! ## C1: the ball projections always return unit-length vectors -/

lemma ballXY_length_one (s : State) (p : ℝ × ℝ) :
    (ballLocationInCameraSpaceXYPlane s p).length = 1 := by
  simp only [ballLocationInCameraSpaceXYPlane]
  set bx := ((locationInBallCoordinates s p).1 - s.ballCenterX) / s.ballRadius with hbx
  set by' := ((locationInBallCoordinates s p).2 - s.ballCenterY) / s.ballRadius with hby
  split_ifs with h
  · have hm0 : (0:ℝ) < bx * bx + by' * by' := lt_trans one_pos h
    have hs : Real.sqrt (bx * bx + by' * by') ≠ 0 :=
      ne_of_gt (Real.sqrt_pos.mpr hm0)
    have h1 : bx * (1 / Real.sqrt (bx * bx + by' * by')) *
        (bx * (1 / Real.sqrt (bx * bx + by' * by'))) +
        by' * (1 / Real.sqrt (bx * bx + by' * by')) *
        (by' * (1 / Real.sqrt (bx * bx + by' * by'))) + 0 * 0 = 1 := by
      field_simp
    simp only [Vec3.length]
    rw [h1, Real.sqrt_one]
  · push_neg at h
    have h1m : (0:ℝ) ≤ 1 - (bx * bx + by' * by') := by linarith
    simp only [Vec3.length]
    rw [Real.mul_self_sqrt h1m]
    rw [show bx * bx + by' * by' + (1 - (bx * bx + by' * by')) = 1 by ring,
      Real.sqrt_one]

lemma ballXZ_length_one (s : State) (p : ℝ × ℝ) :
    (ballLocationInCameraSpaceXZPlane s p).length = 1 := by
  simp only [ballLocationInCameraSpaceXZPlane]
  set bx := ((locationInBallCoordinates s p).1 - s.ballCenterX) / s.ballRadius with hbx
  set bz := ((locationInBallCoordinates s p).2 - s.ballCenterY) / s.ballRadius with hbz
  split_ifs with h
  · have hm0 : (0:ℝ) < bx * bx + bz * bz := lt_trans one_pos h
    have hs : Real.sqrt (bx * bx + bz * bz) ≠ 0 :=
      ne_of_gt (Real.sqrt_pos.mpr hm0)
    have h1 : bx * (1 / Real.sqrt (bx * bx + bz * bz)) *
        (bx * (1 / Real.sqrt (bx * bx + bz * bz))) + 0 * 0 +
        bz * (1 / Real.sqrt (bx * bx + bz * bz)) *
        (bz * (1 / Real.sqrt (bx * bx + bz * bz))) = 1 := by
      field_simp
    simp only [Vec3.length]
    rw [h1, Real.sqrt_one]
  · push_neg at h
    have h1m : (0:ℝ) ≤ 1 - (bx * bx + bz * bz) := by linarith
    simp only [Vec3.length]
    rw [show -Real.sqrt (1 - (bx * bx + bz * bz)) *
        -Real.sqrt (1 - (bx * bx + bz * bz)) =
        Real.sqrt (1 - (bx * bx + bz * bz)) *
        Real.sqrt (1 - (bx * bx + bz * bz)) by ring,
      Real.mul_self_sqrt h1m]
    rw [show bx * bx + (1 - (bx * bx + bz * bz)) + bz * bz = 1 by ring,
      Real.sqrt_one]

/-- C1: for every screen point and every positive viewport bounds, with the
code's default ball center `(0,0)` and radius `1`, both
`ballLocationInCameraSpaceXYPlane` and `ballLocationInCameraSpaceXZPlane`
return a vector of unit length: when the in-plane squared magnitude exceeds
`1` the in-plane components are rescaled by `1/sqrt(m)` with third component
`0`, otherwise the third component is `±sqrt(1-m)`. -/
theorem C1_ball_projection_unit_length (w h : ℝ) (q : Quat) (p : ℝ × ℝ)
    (hw : 0 < w) (hh : 0 < h) :
    (ballLocationInCameraSpaceXYPlane (initState w h q) p).length = 1 ∧
    (ballLocationInCameraSpaceXZPlane (initState w h q) p).length = 1 :=
  ⟨ballXY_length_one _ _, ballXZ_length_one _ _⟩

/-- Witness for C1 at viewport `2 × 2` and screen point `(1,1)`. -/
theorem C1_ball_projection_unit_length_witness :
    (0:ℝ) < 2 ∧
    ((ballLocationInCameraSpaceXYPlane (initState 2 2 Quat.one) (1, 1)).length = 1 ∧
     (ballLocationInCameraSpaceXZPlane (initState 2 2 Quat.one) (1, 1)).length = 1) :=
  ⟨by norm_num,
   C1_ball_projection_unit_length 2 2 Quat.one (1, 1) (by norm_num) (by norm_num)⟩

end RotationController

namespace RotationController

/-! ## C2: momentum decay schedule -/

lemma tick_momentum_step (s : State) (R r : ℝ) (hm : s.momentum = some ⟨R, r⟩)
    (hr : 0 ≤ r) :
    (tick s).momentum = some ⟨R, r - s.kRotationDecelerationRate * R⟩ := by
  simp only [tick, hm]
  rw [if_neg (not_lt.mpr hr)]

lemma tick_momentum_clear (s : State) (R r : ℝ) (hm : s.momentum = some ⟨R, r⟩)
    (hr : r < 0) : (tick s).momentum = none := by
  simp only [tick, hm]
  rw [if_pos hr]

lemma tick_rate (s : State) :
    (tick s).kRotationDecelerationRate = s.kRotationDecelerationRate := by
  unfold tick
  split
  · rfl
  · split
    · rfl
    · rfl

lemma tick_iter_rate (s : State) (k : ℕ) :
    (tick^[k] s).kRotationDecelerationRate = s.kRotationDecelerationRate := by
  induction k generalizing s with
  | zero => rfl
  | succ k ih =>
    rw [Function.iterate_succ_apply, ih, tick_rate]

lemma tick_iter_momentum (R : ℝ) (hR : 0 ≤ R) :
    ∀ (k j : ℕ), j + k ≤ 60 → ∀ s : State,
      s.kRotationDecelerationRate = 1 / 60 →
      s.momentum = some ⟨R, R * (60 - (j : ℝ)) / 60⟩ →
      (tick^[k] s).momentum = some ⟨R, R * (60 - ((j : ℝ) + (k : ℝ))) / 60⟩ := by
  intro k
  induction k with
  | zero =>
    intro j _ s _ hm
    simpa using hm
  | succ k ih =>
    intro j hjk s hrate hm
    have hj : (j : ℝ) ≤ 60 := by
      have : j ≤ 60 := by omega
      exact_mod_cast this
    have hr : 0 ≤ R * (60 - (j : ℝ)) / 60 := by
      apply div_nonneg _ (by norm_num)
      apply mul_nonneg hR
      linarith
    have hstep := tick_momentum_step s R _ hm hr
    rw [hrate] at hstep
    have hstep' : (tick s).momentum = some ⟨R, R * (60 - ((j : ℝ) + 1)) / 60⟩ := by
      rw [hstep]
      simp only [Option.some.injEq, AnglePkg.mk.injEq, true_and]
      ring
    have hrate' : (tick s).kRotationDecelerationRate = 1 / 60 := by
      rw [tick_rate, hrate]
    have hj1k : (j + 1) + k ≤ 60 := by omega
    have := ih (j + 1) hj1k (tick s) hrate' (by
      rw [hstep']
      simp only [Option.some.injEq, AnglePkg.mk.injEq, true_and]
      push_cast
      ring)
    rw [Function.iterate_succ_apply, this]
    simp only [Option.some.injEq, AnglePkg.mk.injEq, true_and]
    push_cast
    ring

/-- C2 (amended): starting the momentum tick handler from
`angleAtMomentumStart = remainingAngle = R > 0`, every one of the first 60
invocations is non-terminal and subtracts the constant amount `R/60`, so
after `k ≤ 60` invocations `remainingAngle = R·(60-k)/60 ≥ 0` (never below
`0`, and exactly `0` after the 60th); the 61st invocation drives
`remainingAngle` below `0` (to `-R/60`), and the 62nd invocation observes
the negative angle, clears the timer and discards the momentum state. -/
theorem C2_momentum_decay_amended (s : State) (R : ℝ) (hR : 0 < R)
    (hrate : s.kRotationDecelerationRate = 1 / 60)
    (hm : s.momentum = some ⟨R, R⟩) :
    (∀ k : ℕ, k ≤ 60 →
      (tick^[k] s).momentum = some ⟨R, R * (60 - (k : ℝ)) / 60⟩ ∧
      0 ≤ R * (60 - (k : ℝ)) / 60) ∧
    (tick^[61] s).momentum = some ⟨R, -(R / 60)⟩ ∧
    -(R / 60) < 0 ∧
    (tick^[62] s).momentum = none := by
  have hm0 : s.momentum = some ⟨R, R * (60 - ((0 : ℕ) : ℝ)) / 60⟩ := by
    rw [hm]
    simp only [Option.some.injEq, AnglePkg.mk.injEq, true_and]
    norm_num
  have hiter : ∀ k : ℕ, k ≤ 60 →
      (tick^[k] s).momentum = some ⟨R, R * (60 - (k : ℝ)) / 60⟩ := by
    intro k hk
    have := tick_iter_momentum R hR.le k 0 (by omega) s hrate hm0
    rw [this]
    norm_num
  have h60 : (tick^[60] s).momentum = some ⟨R, 0⟩ := by
    have := hiter 60 le_rfl
    rw [this]
    norm_num
  have h61 : (tick^[61] s).momentum = some ⟨R, -(R / 60)⟩ := by
    rw [show (61 : ℕ) = 60 + 1 from rfl, Function.iterate_succ_apply']
    have hrate60 : (tick^[60] s).kRotationDecelerationRate = 1 / 60 := by
      rw [tick_iter_rate, hrate]
    have := tick_momentum_step (tick^[60] s) R 0 h60 le_rfl
    rw [hrate60] at this
    rw [this]
    simp only [Option.some.injEq, AnglePkg.mk.injEq, true_and]
    ring
  refine ⟨?_, h61, by linarith, ?_⟩
  · intro k hk
    refine ⟨hiter k hk, ?_⟩
    have hk' : (k : ℝ) ≤ 60 := by exact_mod_cast hk
    apply div_nonneg _ (by norm_num)
    apply mul_nonneg hR.le
    linarith
  · rw [show (62 : ℕ) = 61 + 1 from rfl, Function.iterate_succ_apply']
    exact tick_momentum_clear _ R (-(R / 60)) h61 (by linarith)

/-- Witness for C2 (amended) at `R = 1` on a concrete controller state. -/
theorem C2_momentum_decay_amended_witness :
    (0 : ℝ) < 1 ∧ momentumDemoState.kRotationDecelerationRate = 1 / 60 ∧
    (tick^[61] momentumDemoState).momentum = some ⟨1, -(1 / 60)⟩ ∧
    (tick^[62] momentumDemoState).momentum = none := by
  have h := C2_momentum_decay_amended momentumDemoState 1 (by norm_num) rfl rfl
  exact ⟨by norm_num, rfl, h.2.1, h.2.2.2⟩

/-- C2 counterexample: with `angleAtMomentumStart = remainingAngle = 1`,
after exactly 60 invocations of the tick handler the remaining angle is
exactly `0` — not below `0` — and the timer has not been cleared (the
momentum state is still present); the claim's 60-tick termination is off by
two (the angle first goes negative on tick 61 and the timer is cleared on
tick 62). -/
theorem C2_sixty_ticks_do_not_terminate :
    (tick^[60] momentumDemoState).momentum = some ⟨1, 0⟩ ∧
    (tick^[60] momentumDemoState).momentum ≠ none := by
  have h := tick_iter_momentum 1 (by norm_num) 60 0 (by omega) momentumDemoState rfl
    (by
      have h1 : (1 : ℝ) * (60 - ((0 : ℕ) : ℝ)) / 60 = 1 := by norm_num
      rw [h1]
      rfl)
  rw [h]
  refine ⟨by norm_num, by simp⟩

end RotationController

namespace RotationController

/-! ## Helper lemmas about the vector and quaternion operations -/

lemma Vec3.cross_self (v : Vec3) : v.cross v = Vec3.zero := by
  simp only [Vec3.cross, Vec3.zero, Vec3.mk.injEq]
  refine ⟨by ring, by ring, by ring⟩

lemma Vec3.zero_cross (v : Vec3) : Vec3.zero.cross v = Vec3.zero := by
  simp only [Vec3.cross, Vec3.zero, Vec3.mk.injEq]
  refine ⟨by ring, by ring, by ring⟩

lemma Vec3.zero_length : Vec3.zero.length = 0 := by
  simp only [Vec3.length, Vec3.zero]
  norm_num

lemma Quat.mul_one (q : Quat) : q.mul Quat.one = q := by
  simp only [Quat.mul, Quat.one]
  cases q with
  | mk x y z w =>
    simp only [Quat.mk.injEq]
    refine ⟨by ring, by ring, by ring, by ring⟩

/-! ## The two branches of `updateDrag` -/

lemma updateDrag_skip (s : State) (p : ℝ × ℝ)
    (h : (s.startVector.cross (ballLocationInCameraSpaceXYPlane s p)).length < 0.0001) :
    updateDrag s p =
      { s with
        angleOfRotation :=
          Real.arccos (clamp1 (s.startVector.dot (ballLocationInCameraSpaceXYPlane s p)))
        axisOfRotation := s.startVector.cross (ballLocationInCameraSpaceXYPlane s p) } := by
  unfold updateDrag
  rw [if_pos h]

lemma updateDrag_apply (s : State) (p : ℝ × ℝ)
    (h : ¬ (s.startVector.cross (ballLocationInCameraSpaceXYPlane s p)).length < 0.0001) :
    updateDrag s p =
      { s with
        angleOfRotation :=
          Real.arccos (clamp1 (s.startVector.dot (ballLocationInCameraSpaceXYPlane s p)))
        axisOfRotation := (s.startVector.cross (ballLocationInCameraSpaceXYPlane s p)).normalize
        quaternion :=
          (Quat.setFromAxisAngle
            ((s.startVector.cross (ballLocationInCameraSpaceXYPlane s p)).normalize)
            (Real.arccos (clamp1 (s.startVector.dot (ballLocationInCameraSpaceXYPlane s p))))).mul
            s.quaternionTouchDown
        modelQuaternion :=
          (Quat.setFromAxisAngle
            ((s.startVector.cross (ballLocationInCameraSpaceXYPlane s p)).normalize)
            (Real.arccos (clamp1 (s.startVector.dot (ballLocationInCameraSpaceXYPlane s p))))).mul
            s.quaternionTouchDown
        renderCount := s.renderCount + 1 } := by
  unfold updateDrag
  rw [if_neg h]

lemma ballXY_congr (s t : State) (hw : t.viewWidth = s.viewWidth)
    (hh : t.viewHeight = s.viewHeight) (hcx : t.ballCenterX = s.ballCenterX)
    (hcy : t.ballCenterY = s.ballCenterY) (hr : t.ballRadius = s.ballRadius) (q : ℝ × ℝ) :
    ballLocationInCameraSpaceXYPlane t q = ballLocationInCameraSpaceXYPlane s q := by
  simp only [ballLocationInCameraSpaceXYPlane, locationInBallCoordinates, hw, hh, hcx, hcy, hr]

end RotationController

namespace RotationController

/-! ## Field preservation and concrete evaluations for the demo scenario -/

lemma updateDrag_viewWidth (s : State) (p : ℝ × ℝ) :
    (updateDrag s p).viewWidth = s.viewWidth := by
  by_cases h : (s.startVector.cross (ballLocationInCameraSpaceXYPlane s p)).length < 0.0001
  · rw [updateDrag_skip s p h]
  · rw [updateDrag_apply s p h]

lemma updateDrag_viewHeight (s : State) (p : ℝ × ℝ) :
    (updateDrag s p).viewHeight = s.viewHeight := by
  by_cases h : (s.startVector.cross (ballLocationInCameraSpaceXYPlane s p)).length < 0.0001
  · rw [updateDrag_skip s p h]
  · rw [updateDrag_apply s p h]

lemma updateDrag_ballCenterX (s : State) (p : ℝ × ℝ) :
    (updateDrag s p).ballCenterX = s.ballCenterX := by
  by_cases h : (s.startVector.cross (ballLocationInCameraSpaceXYPlane s p)).length < 0.0001
  · rw [updateDrag_skip s p h]
  · rw [updateDrag_apply s p h]

lemma updateDrag_ballCenterY (s : State) (p : ℝ × ℝ) :
    (updateDrag s p).ballCenterY = s.ballCenterY := by
  by_cases h : (s.startVector.cross (ballLocationInCameraSpaceXYPlane s p)).length < 0.0001
  · rw [updateDrag_skip s p h]
  · rw [updateDrag_apply s p h]

lemma updateDrag_ballRadius (s : State) (p : ℝ × ℝ) :
    (updateDrag s p).ballRadius = s.ballRadius := by
  by_cases h : (s.startVector.cross (ballLocationInCameraSpaceXYPlane s p)).length < 0.0001
  · rw [updateDrag_skip s p h]
  · rw [updateDrag_apply s p h]

lemma updateDrag_startVector (s : State) (p : ℝ × ℝ) :
    (updateDrag s p).startVector = s.startVector := by
  by_cases h : (s.startVector.cross (ballLocationInCameraSpaceXYPlane s p)).length < 0.0001
  · rw [updateDrag_skip s p h]
  · rw [updateDrag_apply s p h]

lemma updateDrag_touchDown (s : State) (p : ℝ × ℝ) :
    (updateDrag s p).quaternionTouchDown = s.quaternionTouchDown := by
  by_cases h : (s.startVector.cross (ballLocationInCameraSpaceXYPlane s p)).length < 0.0001
  · rw [updateDrag_skip s p h]
  · rw [updateDrag_apply s p h]

lemma updateDrag_isDragging (s : State) (p : ℝ × ℝ) :
    (updateDrag s p).isDragging = s.isDragging := by
  by_cases h : (s.startVector.cross (ballLocationInCameraSpaceXYPlane s p)).length < 0.0001
  · rw [updateDrag_skip s p h]
  · rw [updateDrag_apply s p h]

lemma updateDrag_momentum (s : State) (p : ℝ × ℝ) :
    (updateDrag s p).momentum = s.momentum := by
  by_cases h : (s.startVector.cross (ballLocationInCameraSpaceXYPlane s p)).length < 0.0001
  · rw [updateDrag_skip s p h]
  · rw [updateDrag_apply s p h]

lemma ballXY_center_eval (s : State) (hw : s.viewWidth = 2) (hh : s.viewHeight = 2)
    (hcx : s.ballCenterX = 0) (hcy : s.ballCenterY = 0) (hr : s.ballRadius = 1) :
    ballLocationInCameraSpaceXYPlane s (1, 1) = ⟨0, 0, 1⟩ := by
  simp only [ballLocationInCameraSpaceXYPlane, locationInBallCoordinates,
    hw, hh, hcx, hcy, hr]
  norm_num [Vec3.mk.injEq]

lemma ballXY_right_eval (s : State) (hw : s.viewWidth = 2) (hh : s.viewHeight = 2)
    (hcx : s.ballCenterX = 0) (hcy : s.ballCenterY = 0) (hr : s.ballRadius = 1) :
    ballLocationInCameraSpaceXYPlane s (2, 1) = ⟨1, 0, 0⟩ := by
  simp only [ballLocationInCameraSpaceXYPlane, locationInBallCoordinates,
    hw, hh, hcx, hcy, hr]
  norm_num [Vec3.mk.injEq]

lemma demoS1_startVector : demoS1.startVector = ⟨0, 0, 1⟩ := by
  show ballLocationInCameraSpaceXYPlane demoS0 (1, 1) = ⟨0, 0, 1⟩
  exact ballXY_center_eval demoS0 rfl rfl rfl rfl rfl

lemma demoS1_proj_right : ballLocationInCameraSpaceXYPlane demoS1 (2, 1) = ⟨1, 0, 0⟩ :=
  ballXY_right_eval demoS1 rfl rfl rfl rfl rfl

lemma cross_start_right : Vec3.cross ⟨0, 0, 1⟩ ⟨1, 0, 0⟩ = ⟨0, 1, 0⟩ := by
  simp only [Vec3.cross, Vec3.mk.injEq]
  norm_num

lemma dot_start_right : Vec3.dot ⟨0, 0, 1⟩ ⟨1, 0, 0⟩ = 0 := by
  simp only [Vec3.dot]
  norm_num

lemma length_e2 : Vec3.length ⟨0, 1, 0⟩ = 1 := by
  simp only [Vec3.length]
  norm_num

lemma normalize_e2 : Vec3.normalize ⟨0, 1, 0⟩ = ⟨0, 1, 0⟩ := by
  simp only [Vec3.normalize, Vec3.length]
  norm_num [Vec3.mk.injEq]

lemma clamp1_zero : clamp1 0 = 0 := by
  simp only [clamp1]
  norm_num

lemma quarter_turn_y : Quat.setFromAxisAngle ⟨0, 1, 0⟩ (π / 2) =
    ⟨0, Real.sqrt 2 / 2, 0, Real.sqrt 2 / 2⟩ := by
  simp only [Quat.setFromAxisAngle]
  rw [show π / 2 / 2 = π / 4 by ring, Real.sin_pi_div_four, Real.cos_pi_div_four]
  simp only [Quat.mk.injEq]
  norm_num

lemma demoS2_eq : demoS2 =
    { demoS1 with
      angleOfRotation := π / 2
      axisOfRotation := ⟨0, 1, 0⟩
      quaternion := ⟨0, Real.sqrt 2 / 2, 0, Real.sqrt 2 / 2⟩
      modelQuaternion := ⟨0, Real.sqrt 2 / 2, 0, Real.sqrt 2 / 2⟩
      renderCount := demoS1.renderCount + 1 } := by
  have hnd : ¬ (demoS1.startVector.cross
      (ballLocationInCameraSpaceXYPlane demoS1 (2, 1))).length < 0.0001 := by
    rw [demoS1_startVector, demoS1_proj_right, cross_start_right, length_e2]
    norm_num
  have hq : (Quat.setFromAxisAngle
      ((demoS1.startVector.cross (ballLocationInCameraSpaceXYPlane demoS1 (2, 1))).normalize)
      (Real.arccos (clamp1 (demoS1.startVector.dot
        (ballLocationInCameraSpaceXYPlane demoS1 (2, 1)))))).mul demoS1.quaternionTouchDown =
      ⟨0, Real.sqrt 2 / 2, 0, Real.sqrt 2 / 2⟩ := by
    rw [demoS1_startVector, demoS1_proj_right, cross_start_right, dot_start_right,
      normalize_e2, clamp1_zero, Real.arccos_zero, quarter_turn_y,
      show demoS1.quaternionTouchDown = Quat.one from rfl, Quat.mul_one]
  show updateDrag demoS1 (2, 1) = _
  rw [updateDrag_apply demoS1 (2, 1) hnd]
  simp only [State.mk.injEq, and_true, true_and]
  refine ⟨hq, ?_, ?_, hq⟩
  · rw [demoS1_startVector, demoS1_proj_right, dot_start_right, clamp1_zero,
      Real.arccos_zero]
  · rw [demoS1_startVector, demoS1_proj_right, cross_start_right, normalize_e2]

end RotationController

namespace RotationController

/-! ## C4: what a degenerate `updateDrag` does and does not touch -/

/-- C4 (amended): when the cross product of the stored start vector with the
projected end vector is shorter than the `1e-4` threshold, `updateDrag`
applies no rotation — the current orientation, the drag-start snapshot, the
target's orientation and the render counter are unchanged, as are
`startVector`, `isDragging` and the timer — but, contrary to the claim, the
scratch fields are still overwritten before the early return:
`angleOfRotation` receives the freshly computed angle and `axisOfRotation`
the un-normalized cross product. -/
theorem C4_degenerate_updateDrag_amended (s : State) (p : ℝ × ℝ)
    (h : (s.startVector.cross (ballLocationInCameraSpaceXYPlane s p)).length < 0.0001) :
    (updateDrag s p).quaternion = s.quaternion ∧
    (updateDrag s p).quaternionTouchDown = s.quaternionTouchDown ∧
    (updateDrag s p).modelQuaternion = s.modelQuaternion ∧
    (updateDrag s p).renderCount = s.renderCount ∧
    (updateDrag s p).startVector = s.startVector ∧
    (updateDrag s p).isDragging = s.isDragging ∧
    (updateDrag s p).momentum = s.momentum ∧
    (updateDrag s p).angleOfRotation =
      Real.arccos (clamp1 (s.startVector.dot (ballLocationInCameraSpaceXYPlane s p))) ∧
    (updateDrag s p).axisOfRotation =
      s.startVector.cross (ballLocationInCameraSpaceXYPlane s p) := by
  rw [updateDrag_skip s p h]
  exact ⟨rfl, rfl, rfl, rfl, rfl, rfl, rfl, rfl, rfl⟩

/-- Witness for C4 (amended) on a fresh controller at the ball center. -/
theorem C4_degenerate_updateDrag_amended_witness :
    (demoS0.startVector.cross
      (ballLocationInCameraSpaceXYPlane demoS0 (1, 1))).length < 0.0001 ∧
    (updateDrag demoS0 (1, 1)).modelQuaternion = demoS0.modelQuaternion := by
  have h : (demoS0.startVector.cross
      (ballLocationInCameraSpaceXYPlane demoS0 (1, 1))).length < 0.0001 := by
    rw [show demoS0.startVector = Vec3.zero from rfl, Vec3.zero_cross, Vec3.zero_length]
    norm_num
  exact ⟨h, (C4_degenerate_updateDrag_amended demoS0 (1, 1) h).2.2.1⟩

lemma demoS2_viewWidth : demoS2.viewWidth = 2 := by
  unfold demoS2
  rw [updateDrag_viewWidth]
  rfl

lemma demoS2_viewHeight : demoS2.viewHeight = 2 := by
  unfold demoS2
  rw [updateDrag_viewHeight]
  rfl

lemma demoS2_ballCenterX : demoS2.ballCenterX = 0 := by
  unfold demoS2
  rw [updateDrag_ballCenterX]
  rfl

lemma demoS2_ballCenterY : demoS2.ballCenterY = 0 := by
  unfold demoS2
  rw [updateDrag_ballCenterY]
  rfl

lemma demoS2_ballRadius : demoS2.ballRadius = 1 := by
  unfold demoS2
  rw [updateDrag_ballRadius]
  rfl

lemma demoS2_startVector : demoS2.startVector = ⟨0, 0, 1⟩ := by
  unfold demoS2
  rw [updateDrag_startVector, demoS1_startVector]

lemma demoS2_proj_center : ballLocationInCameraSpaceXYPlane demoS2 (1, 1) = ⟨0, 0, 1⟩ :=
  ballXY_center_eval demoS2 demoS2_viewWidth demoS2_viewHeight demoS2_ballCenterX
    demoS2_ballCenterY demoS2_ballRadius

lemma demoS23_degenerate :
    (demoS2.startVector.cross
      (ballLocationInCameraSpaceXYPlane demoS2 (1, 1))).length < 0.0001 := by
  rw [demoS2_proj_center, demoS2_startVector, Vec3.cross_self, Vec3.zero_length]
  norm_num

/-- C4 counterexample: dragging from the ball center to the right edge and
then back to the exact center, the final `updateDrag` is degenerate (its
cross product has length `0 < 1e-4`) and indeed leaves the target orientation
alone, but it does mutate controller state: `axisOfRotation` changes from
`(0,1,0)` to the zero cross product. -/
theorem C4_skipped_update_still_mutates_state :
    (demoS2.startVector.cross
      (ballLocationInCameraSpaceXYPlane demoS2 (1, 1))).length < 0.0001 ∧
    demoS3.axisOfRotation ≠ demoS2.axisOfRotation ∧
    demoS3.modelQuaternion = demoS2.modelQuaternion := by
  refine ⟨demoS23_degenerate, ?_, ?_⟩
  · have h3 : demoS3.axisOfRotation =
        demoS2.startVector.cross (ballLocationInCameraSpaceXYPlane demoS2 (1, 1)) := by
      show (updateDrag demoS2 (1, 1)).axisOfRotation = _
      rw [updateDrag_skip demoS2 (1, 1) demoS23_degenerate]
    rw [h3, demoS2_proj_center, demoS2_startVector, Vec3.cross_self]
    rw [show demoS2.axisOfRotation = ⟨0, 1, 0⟩ from by rw [demoS2_eq]]
    simp only [Vec3.zero, ne_eq, Vec3.mk.injEq]
    norm_num
  · show (updateDrag demoS2 (1, 1)).modelQuaternion = demoS2.modelQuaternion
    rw [updateDrag_skip demoS2 (1, 1) demoS23_degenerate]

end RotationController

namespace RotationController

/-! ## C5: non-degenerate `updateDrag` composition and idempotence -/

/-- C5: when the cross product is at least the `1e-4` threshold, the new
current orientation is the drag quaternion — built from the normalized
cross product of start and end vectors and the clamped-arccos angle —
left-multiplied onto the drag-start snapshot, this result is written to the
target, and a second `updateDrag` at the same screen point recomputes
exactly the same orientation (the update is idempotent on the orientation
because it always restarts from the fixed start vector and snapshot). -/
theorem C5_nondegenerate_updateDrag (s : State) (p : ℝ × ℝ)
    (h : ¬ (s.startVector.cross (ballLocationInCameraSpaceXYPlane s p)).length < 0.0001) :
    (updateDrag s p).quaternion =
      (Quat.setFromAxisAngle
        ((s.startVector.cross (ballLocationInCameraSpaceXYPlane s p)).normalize)
        (Real.arccos (clamp1 (s.startVector.dot
          (ballLocationInCameraSpaceXYPlane s p))))).mul s.quaternionTouchDown ∧
    (updateDrag s p).modelQuaternion = (updateDrag s p).quaternion ∧
    (updateDrag (updateDrag s p) p).quaternion = (updateDrag s p).quaternion ∧
    (updateDrag (updateDrag s p) p).modelQuaternion = (updateDrag s p).modelQuaternion := by
  have hproj : ballLocationInCameraSpaceXYPlane (updateDrag s p) p =
      ballLocationInCameraSpaceXYPlane s p :=
    ballXY_congr s (updateDrag s p) (updateDrag_viewWidth s p) (updateDrag_viewHeight s p)
      (updateDrag_ballCenterX s p) (updateDrag_ballCenterY s p) (updateDrag_ballRadius s p) p
  have h2 : ¬ ((updateDrag s p).startVector.cross
      (ballLocationInCameraSpaceXYPlane (updateDrag s p) p)).length < 0.0001 := by
    rw [hproj, updateDrag_startVector]
    exact h
  refine ⟨?_, ?_, ?_, ?_⟩
  · rw [updateDrag_apply s p h]
  · rw [updateDrag_apply s p h]
  · rw [updateDrag_apply (updateDrag s p) p h2, updateDrag_startVector,
      updateDrag_touchDown, hproj, updateDrag_apply s p h]
  · rw [updateDrag_apply (updateDrag s p) p h2, updateDrag_startVector,
      updateDrag_touchDown, hproj, updateDrag_apply s p h]

/-- Witness for C5: drag from ball center, update to the right edge twice. -/
theorem C5_nondegenerate_updateDrag_witness :
    ¬ (demoS1.startVector.cross
      (ballLocationInCameraSpaceXYPlane demoS1 (2, 1))).length < 0.0001 ∧
    (updateDrag (updateDrag demoS1 (2, 1)) (2, 1)).quaternion =
      (updateDrag demoS1 (2, 1)).quaternion := by
  have hnd : ¬ (demoS1.startVector.cross
      (ballLocationInCameraSpaceXYPlane demoS1 (2, 1))).length < 0.0001 := by
    rw [demoS1_startVector, demoS1_proj_right, cross_start_right, length_e2]
    norm_num
  exact ⟨hnd, (C5_nondegenerate_updateDrag demoS1 (2, 1) hnd).2.2.1⟩

/-! ## C8: returning to the starting ball vector -/

/-- C8 (amended): an `updateDrag` whose screen point projects to exactly the
stored start vector has a zero cross product, so the update is skipped: the
target's orientation, the current orientation and the render counter keep
the values from the last accepted update.  That value equals the drag-start
orientation only when no intervening non-degenerate `updateDrag` has
rotated the model since `beginDrag`. -/
theorem C8_same_ball_vector_skips (s : State) (p : ℝ × ℝ)
    (h : ballLocationInCameraSpaceXYPlane s p = s.startVector) :
    (updateDrag s p).modelQuaternion = s.modelQuaternion ∧
    (updateDrag s p).quaternion = s.quaternion ∧
    (updateDrag s p).renderCount = s.renderCount := by
  have hlen : (s.startVector.cross
      (ballLocationInCameraSpaceXYPlane s p)).length < 0.0001 := by
    rw [h, Vec3.cross_self, Vec3.zero_length]
    norm_num
  rw [updateDrag_skip s p hlen]
  exact ⟨rfl, rfl, rfl⟩

/-- Witness for C8 (amended): immediately after `beginDrag` at the center,
an `updateDrag` at the very same point leaves the model untouched. -/
theorem C8_same_ball_vector_skips_witness :
    ballLocationInCameraSpaceXYPlane demoS1 (1, 1) = demoS1.startVector ∧
    (updateDrag demoS1 (1, 1)).modelQuaternion = demoS1.modelQuaternion := by
  have h : ballLocationInCameraSpaceXYPlane demoS1 (1, 1) = demoS1.startVector := by
    rw [ballXY_center_eval demoS1 rfl rfl rfl rfl rfl, demoS1_startVector]
  exact ⟨h, (C8_same_ball_vector_skips demoS1 (1, 1) h).1⟩

/-- C8 counterexample: begin the drag at the ball center, update to the
right edge (a quarter-turn), then update with a screen point mapping to the
same ball vector as `beginDrag`'s point.  The claim says the orientation is
now back to the drag-start orientation (the identity); in fact the update
was skipped and the target still holds the quarter-turn quaternion
`(0, √2/2, 0, √2/2) ≠ (0, 0, 0, 1)`. -/
theorem C8_return_to_start_is_not_identity :
    ballLocationInCameraSpaceXYPlane demoS2 (1, 1) = demoS1.startVector ∧
    demoS1.quaternion = Quat.one ∧
    demoS3.modelQuaternion ≠ demoS1.quaternion := by
  refine ⟨by rw [demoS2_proj_center, demoS1_startVector], rfl, ?_⟩
  have h3 : demoS3.modelQuaternion = ⟨0, Real.sqrt 2 / 2, 0, Real.sqrt 2 / 2⟩ := by
    show (updateDrag demoS2 (1, 1)).modelQuaternion = _
    rw [updateDrag_skip demoS2 (1, 1) demoS23_degenerate]
    rw [show demoS2.modelQuaternion = ⟨0, Real.sqrt 2 / 2, 0, Real.sqrt 2 / 2⟩ from by
      rw [demoS2_eq]]
  rw [h3, show demoS1.quaternion = Quat.one from rfl]
  have h2 : (0 : ℝ) < Real.sqrt 2 := Real.sqrt_pos.mpr (by norm_num)
  intro hcontra
  have hy := congrArg Quat.y hcontra
  simp only [Quat.one] at hy
  linarith

/-! ## C10: zero start vector always skips the update -/

/-- C10: the stored start vector is the zero vector after construction and
after `stopDrag`; with a zero start vector every `updateDrag` has a
zero-length cross product, so the update is always skipped — the target's
orientation, the current orientation and the render counter are unchanged
for every screen point. -/
theorem C10_zero_start_vector_always_skips :
    (∀ (w h : ℝ) (q : Quat), (initState w h q).startVector = Vec3.zero) ∧
    (∀ s : State, (stopDrag s).startVector = Vec3.zero) ∧
    (∀ (s : State) (p : ℝ × ℝ), s.startVector = Vec3.zero →
      (updateDrag s p).modelQuaternion = s.modelQuaternion ∧
      (updateDrag s p).renderCount = s.renderCount ∧
      (updateDrag s p).quaternion = s.quaternion) := by
  refine ⟨fun w h q => rfl, fun s => rfl, fun s p hsv => ?_⟩
  have hlen : (s.startVector.cross
      (ballLocationInCameraSpaceXYPlane s p)).length < 0.0001 := by
    rw [hsv, Vec3.zero_cross, Vec3.zero_length]
    norm_num
  rw [updateDrag_skip s p hlen]
  exact ⟨rfl, rfl, rfl⟩

/-- Witness for C10 on a fresh controller and an arbitrary concrete point. -/
theorem C10_zero_start_vector_always_skips_witness :
    demoS0.startVector = Vec3.zero ∧
    (updateDrag demoS0 (5, 7)).modelQuaternion = demoS0.modelQuaternion := by
  refine ⟨C10_zero_start_vector_always_skips.1 2 2 Quat.one, ?_⟩
  exact (C10_zero_start_vector_always_skips.2.2 demoS0 (5, 7) rfl).1

end RotationController

namespace RotationController

/-! ## The branches of `endDrag` and of `tick` -/

lemma endDrag_velSkip (s : State) (velocity location : ℝ × ℝ)
    (hv : Real.sqrt (velocity.1 * velocity.1 + velocity.2 * velocity.2) < 0.1) :
    endDrag s velocity location =
      { s with isDragging := false, quaternionTouchDown := s.quaternion } := by
  unfold endDrag
  rw [if_pos hv]

lemma endDrag_radSkip (s : State) (velocity location : ℝ × ℝ)
    (hv : ¬ Real.sqrt (velocity.1 * velocity.1 + velocity.2 * velocity.2) < 0.1)
    (hr : Real.arccos (clamp1
        ((ballLocationInCameraSpaceXYPlane
            { s with isDragging := false, quaternionTouchDown := s.quaternion } location).dot
          (ballLocationInCameraSpaceXYPlane
            { s with isDragging := false, quaternionTouchDown := s.quaternion }
            (s.kRotationRate * velocity.1 + location.1,
             s.kRotationRate * velocity.2 + location.2)))) < 0.001) :
    endDrag s velocity location =
      { s with isDragging := false, quaternionTouchDown := s.quaternion } := by
  unfold endDrag
  rw [if_neg hv, if_pos hr]

lemma endDrag_start_momentum (s : State) (velocity location : ℝ × ℝ)
    (hv : ¬ Real.sqrt (velocity.1 * velocity.1 + velocity.2 * velocity.2) < 0.1)
    (hr : ¬ Real.arccos (clamp1
        ((ballLocationInCameraSpaceXYPlane
            { s with isDragging := false, quaternionTouchDown := s.quaternion } location).dot
          (ballLocationInCameraSpaceXYPlane
            { s with isDragging := false, quaternionTouchDown := s.quaternion }
            (s.kRotationRate * velocity.1 + location.1,
             s.kRotationRate * velocity.2 + location.2)))) < 0.001) :
    endDrag s velocity location =
      { s with isDragging := false
               quaternionTouchDown := s.quaternion
               momentum := some
                 ⟨Real.arccos (clamp1
                    ((ballLocationInCameraSpaceXYPlane
                        { s with isDragging := false,
                                 quaternionTouchDown := s.quaternion } location).dot
                      (ballLocationInCameraSpaceXYPlane
                        { s with isDragging := false,
                                 quaternionTouchDown := s.quaternion }
                        (s.kRotationRate * velocity.1 + location.1,
                         s.kRotationRate * velocity.2 + location.2)))),
                  Real.arccos (clamp1
                    ((ballLocationInCameraSpaceXYPlane
                        { s with isDragging := false,
                                 quaternionTouchDown := s.quaternion } location).dot
                      (ballLocationInCameraSpaceXYPlane
                        { s with isDragging := false,
                                 quaternionTouchDown := s.quaternion }
                        (s.kRotationRate * velocity.1 + location.1,
                         s.kRotationRate * velocity.2 + location.2))))⟩
               orphanedTimers :=
                 s.orphanedTimers + (if s.momentum.isSome then 1 else 0) } := by
  unfold endDrag
  rw [if_neg hv, if_neg hr]

lemma tick_apply (s : State) (pkg : AnglePkg) (hm : s.momentum = some pkg)
    (hr : ¬ pkg.radians < 0) :
    tick s = { s with
      momentum := some ⟨pkg.radiansBegin,
        pkg.radians - s.kRotationDecelerationRate * pkg.radiansBegin⟩
      quaternion := (Quat.setFromAxisAngle s.axisOfRotation
        (pkg.radians - s.kRotationDecelerationRate * pkg.radiansBegin)).mul
        s.quaternionTouchDown
      modelQuaternion := (Quat.setFromAxisAngle s.axisOfRotation
        (pkg.radians - s.kRotationDecelerationRate * pkg.radiansBegin)).mul
        s.quaternionTouchDown
      quaternionTouchDown := (Quat.setFromAxisAngle s.axisOfRotation
        (pkg.radians - s.kRotationDecelerationRate * pkg.radiansBegin)).mul
        s.quaternionTouchDown
      renderCount := s.renderCount + 1 } := by
  simp only [tick, hm]
  rw [if_neg hr]

end RotationController

namespace RotationController

/-! ## Evaluating the `endDrag` demo scenario -/

lemma demo_velocity_fast :
    ¬ Real.sqrt ((((30 : ℝ), (0 : ℝ))).1 * (((30 : ℝ), (0 : ℝ))).1 +
      (((30 : ℝ), (0 : ℝ))).2 * (((30 : ℝ), (0 : ℝ))).2) < 0.1 := by
  have h1 : (((30 : ℝ), (0 : ℝ))).1 * (((30 : ℝ), (0 : ℝ))).1 +
      (((30 : ℝ), (0 : ℝ))).2 * (((30 : ℝ), (0 : ℝ))).2 = 30 ^ 2 := by norm_num
  rw [h1, Real.sqrt_sq (by norm_num : (0 : ℝ) ≤ 30)]
  norm_num

lemma pi_half_not_small : ¬ (π / 2 < 0.001) := by
  intro h
  linarith [Real.pi_gt_three]

lemma demoEnd1_eq : demoEnd1 =
    { demoS0 with isDragging := false, momentum := some ⟨π / 2, π / 2⟩ } := by
  have hpt : (demoS0.kRotationRate * (((30 : ℝ), (0 : ℝ))).1 + (((1 : ℝ), (1 : ℝ))).1,
      demoS0.kRotationRate * (((30 : ℝ), (0 : ℝ))).2 + (((1 : ℝ), (1 : ℝ))).2) =
      ((2 : ℝ), (1 : ℝ)) := by
    rw [show demoS0.kRotationRate = 1 / 30 from rfl]
    norm_num
  have hballa : ballLocationInCameraSpaceXYPlane
      { demoS0 with isDragging := false, quaternionTouchDown := demoS0.quaternion }
      (1, 1) = ⟨0, 0, 1⟩ :=
    ballXY_center_eval _ rfl rfl rfl rfl rfl
  have hballb : ballLocationInCameraSpaceXYPlane
      { demoS0 with isDragging := false, quaternionTouchDown := demoS0.quaternion }
      (2, 1) = ⟨1, 0, 0⟩ :=
    ballXY_right_eval _ rfl rfl rfl rfl rfl
  show endDrag demoS0 (30, 0) (1, 1) = _
  rw [endDrag_start_momentum demoS0 (30, 0) (1, 1) demo_velocity_fast ?hr]
  case hr =>
    rw [hpt, hballa, hballb, dot_start_right, clamp1_zero, Real.arccos_zero]
    exact pi_half_not_small
  simp only [State.mk.injEq, and_true, true_and]
  refine ⟨?_, rfl, rfl⟩
  rw [hpt, hballa, hballb, dot_start_right, clamp1_zero, Real.arccos_zero]

end RotationController

namespace RotationController

lemma demoEnd1_momentum : demoEnd1.momentum = some ⟨π / 2, π / 2⟩ := by
  rw [demoEnd1_eq]

lemma demoEnd1_axis : demoEnd1.axisOfRotation = Vec3.zero := by
  rw [demoEnd1_eq]
  rfl

lemma demoEnd1_touchDown : demoEnd1.quaternionTouchDown = Quat.one := by
  rw [demoEnd1_eq]
  rfl

lemma demoEnd1_decelRate : demoEnd1.kRotationDecelerationRate = 1 / 60 := by
  rw [demoEnd1_eq]
  rfl

lemma demoEnd1_kRate : demoEnd1.kRotationRate = 1 / 30 := by
  rw [demoEnd1_eq]
  rfl

lemma demoEnd1_orphaned : demoEnd1.orphanedTimers = 0 := by
  rw [demoEnd1_eq]
  rfl

lemma demoEnd1_quaternion : demoEnd1.quaternion = Quat.one := by
  rw [demoEnd1_eq]
  rfl

lemma cos_59_240_lt_one : Real.cos (59 * π / 240) < 1 := by
  have h := Real.cos_lt_cos_of_nonneg_of_le_pi (le_refl 0)
    (by linarith [Real.pi_pos] : 59 * π / 240 ≤ π)
    (by positivity : (0 : ℝ) < 59 * π / 240)
  rwa [Real.cos_zero] at h

lemma cos_59_240_pos : 0 < Real.cos (59 * π / 240) :=
  Real.cos_pos_of_mem_Ioo
    ⟨by linarith [Real.pi_pos], by linarith [Real.pi_pos]⟩

lemma demoTick1_model : demoTick1.modelQuaternion =
    Quat.setFromAxisAngle Vec3.zero (π / 2 - 1 / 60 * (π / 2)) := by
  have hstep := tick_apply demoEnd1 ⟨π / 2, π / 2⟩ demoEnd1_momentum
    (by simp only [not_lt]; positivity)
  show (tick demoEnd1).modelQuaternion = _
  rw [hstep]
  show (Quat.setFromAxisAngle demoEnd1.axisOfRotation
      (π / 2 - demoEnd1.kRotationDecelerationRate * (π / 2))).mul
      demoEnd1.quaternionTouchDown = _
  rw [demoEnd1_axis, demoEnd1_touchDown, demoEnd1_decelRate, Quat.mul_one]

/-- C3 refutation: starting from a freshly constructed controller (unit model
quaternion, zero `axisOfRotation`), a single `endDrag` with velocity
`(30, 0)` at the ball center starts momentum with angle `π/2`, and the first
momentum tick builds its quaternion from the zero axis: the orientation
written to the model is `(0, 0, 0, cos(59π/240))`, whose squared norm is
strictly below `1` — the unit-norm invariant is broken exactly in the case
the claim singles out (momentum with no prior normalizing `updateDrag`). -/
theorem C3_momentum_tick_writes_nonunit_quaternion :
    demoEnd1.axisOfRotation = Vec3.zero ∧
    demoTick1.modelQuaternion.normSq < 1 := by
  refine ⟨demoEnd1_axis, ?_⟩
  rw [demoTick1_model]
  simp only [Quat.setFromAxisAngle, Quat.normSq, Vec3.zero]
  rw [show (π / 2 - 1 / 60 * (π / 2)) / 2 = 59 * π / 240 by ring]
  have h1 := cos_59_240_lt_one
  have h2 := cos_59_240_pos
  nlinarith [h1, h2]

end RotationController

namespace RotationController

lemma demoEnd1_viewWidth : demoEnd1.viewWidth = 2 := by
  rw [demoEnd1_eq]
  rfl

lemma demoEnd1_viewHeight : demoEnd1.viewHeight = 2 := by
  rw [demoEnd1_eq]
  rfl

lemma demoEnd1_ballCenterX : demoEnd1.ballCenterX = 0 := by
  rw [demoEnd1_eq]
  rfl

lemma demoEnd1_ballCenterY : demoEnd1.ballCenterY = 0 := by
  rw [demoEnd1_eq]
  rfl

lemma demoEnd1_ballRadius : demoEnd1.ballRadius = 1 := by
  rw [demoEnd1_eq]
  rfl

lemma demoEnd2_eq : demoEnd2 =
    { demoEnd1 with isDragging := false
                    quaternionTouchDown := Quat.one
                    momentum := some ⟨π / 2, π / 2⟩
                    orphanedTimers := 1 } := by
  have hpt : (demoEnd1.kRotationRate * (((30 : ℝ), (0 : ℝ))).1 + (((1 : ℝ), (1 : ℝ))).1,
      demoEnd1.kRotationRate * (((30 : ℝ), (0 : ℝ))).2 + (((1 : ℝ), (1 : ℝ))).2) =
      ((2 : ℝ), (1 : ℝ)) := by
    rw [demoEnd1_kRate]
    norm_num
  have hballa : ballLocationInCameraSpaceXYPlane
      { demoEnd1 with isDragging := false, quaternionTouchDown := demoEnd1.quaternion }
      (1, 1) = ⟨0, 0, 1⟩ :=
    ballXY_center_eval _ demoEnd1_viewWidth demoEnd1_viewHeight demoEnd1_ballCenterX
      demoEnd1_ballCenterY demoEnd1_ballRadius
  have hballb : ballLocationInCameraSpaceXYPlane
      { demoEnd1 with isDragging := false, quaternionTouchDown := demoEnd1.quaternion }
      (2, 1) = ⟨1, 0, 0⟩ :=
    ballXY_right_eval _ demoEnd1_viewWidth demoEnd1_viewHeight demoEnd1_ballCenterX
      demoEnd1_ballCenterY demoEnd1_ballRadius
  show endDrag demoEnd1 (30, 0) (1, 1) = _
  rw [endDrag_start_momentum demoEnd1 (30, 0) (1, 1) demo_velocity_fast ?hr]
  case hr =>
    rw [hpt, hballa, hballb, dot_start_right, clamp1_zero, Real.arccos_zero]
    exact pi_half_not_small
  simp only [State.mk.injEq, and_true, true_and]
  refine ⟨?_, demoEnd1_quaternion, ?_⟩
  · rw [hpt, hballa, hballb, dot_start_right, clamp1_zero, Real.arccos_zero]
  · rw [demoEnd1_orphaned, demoEnd1_momentum]
    rfl

/-- C7 refutation: on a fresh controller, two consecutive `endDrag` calls
with velocity `(30, 0)` at the ball center both pass the velocity and angle
thresholds, so each starts a `setInterval`.  The second assignment
overwrites the first interval's handle without `clearInterval`, so after the
second call two interval instances are running concurrently (the first one
orphaned and no longer cancellable). -/
theorem C7_double_endDrag_two_live_timers :
    liveTimers demoEnd1 = 1 ∧ liveTimers demoEnd2 = 2 := by
  constructor
  · unfold liveTimers
    rw [demoEnd1_orphaned, demoEnd1_momentum]
    rfl
  · unfold liveTimers
    rw [demoEnd2_eq]
    rfl

end RotationController

namespace RotationController

/-! ## C6: drag and momentum are mutually exclusive drivers -/

lemma tick_isDragging (s : State) : (tick s).isDragging = s.isDragging := by
  unfold tick
  split
  · rfl
  · split
    · rfl
    · rfl

lemma endDrag_isDragging (s : State) (velocity location : ℝ × ℝ) :
    (endDrag s velocity location).isDragging = false := by
  by_cases hv : Real.sqrt (velocity.1 * velocity.1 + velocity.2 * velocity.2) < 0.1
  · rw [endDrag_velSkip s velocity location hv]
  · by_cases hr : Real.arccos (clamp1
        ((ballLocationInCameraSpaceXYPlane
            { s with isDragging := false, quaternionTouchDown := s.quaternion } location).dot
          (ballLocationInCameraSpaceXYPlane
            { s with isDragging := false, quaternionTouchDown := s.quaternion }
            (s.kRotationRate * velocity.1 + location.1,
             s.kRotationRate * velocity.2 + location.2)))) < 0.001
    · rw [endDrag_radSkip s velocity location hv hr]
    · rw [endDrag_start_momentum s velocity location hv hr]

lemma step_preserves_exclusion (s : State) (o : Op)
    (h : s.isDragging = false ∨ s.momentum = none) :
    (step s o).isDragging = false ∨ (step s o).momentum = none := by
  cases o with
  | beginDragOp p => exact Or.inr rfl
  | updateDragOp p =>
    rw [show step s (Op.updateDragOp p) = updateDrag s p from rfl,
      updateDrag_isDragging, updateDrag_momentum]
    exact h
  | endDragOp v l => exact Or.inl (endDrag_isDragging s v l)
  | tickOp =>
    cases h with
    | inl hd =>
      left
      rw [show step s Op.tickOp = tick s from rfl, tick_isDragging]
      exact hd
    | inr hm =>
      right
      show (tick s).momentum = none
      unfold tick
      rw [hm]
      exact hm
  | stopDragOp => exact Or.inr rfl
  | reshapeOp w h' => exact h
  | setRotationEulerOp x y z => exact h
  | rotateClockwiseOp d => exact h
  | rotateCounterclockwiseOp d => exact h
  | nudgePitchUpOp d => exact h
  | nudgePitchDownOp d => exact h
  | nudgeRollOp d => exact h

/-- C6: along every sequence of public operations from the freshly
constructed (idle) controller, at most one of "a drag is active"
(`isDragging`) and "a momentum timer is present" (`rotationTimer` non-null)
holds: at every reachable state either `isDragging` is `false` or the
momentum timer is absent.  `beginDrag` cancels the timer before setting
`isDragging`, `endDrag` clears `isDragging` before possibly starting
momentum, and `stopDrag` clears both. -/
theorem C6_at_most_one_driver (w h : ℝ) (q : Quat) (ops : List Op) :
    (run (initState w h q) ops).isDragging = false ∨
    (run (initState w h q) ops).momentum = none := by
  have key : ∀ (l : List Op) (s : State),
      (s.isDragging = false ∨ s.momentum = none) →
      ((run s l).isDragging = false ∨ (run s l).momentum = none) := by
    intro l
    induction l with
    | nil => intro s hs; exact hs
    | cons o os ih => intro s hs; exact ih (step s o) (step_preserves_exclusion s o hs)
  exact key ops (initState w h q) (Or.inl rfl)

end RotationController

namespace RotationController

/-! ## C9 support: properties of `atan2` -/

lemma atan2_smul (r y x : ℝ) (hr : 0 < r) : atan2 (r * y) (r * x) = atan2 y x := by
  unfold atan2
  by_cases hx : 0 < x
  · rw [if_pos hx, if_pos (mul_pos hr hx), mul_div_mul_left y x (ne_of_gt hr)]
  · by_cases hx' : x < 0
    · have hrx : r * x < 0 := mul_neg_of_pos_of_neg hr hx'
      rw [if_neg hx, if_neg (not_lt.mpr hrx.le), if_pos hx', if_pos hrx]
      by_cases hy : 0 ≤ y
      · rw [if_pos hy, if_pos (mul_nonneg hr.le hy),
          mul_div_mul_left y x (ne_of_gt hr)]
      · push_neg at hy
        rw [if_neg (not_le.mpr hy),
          if_neg (not_le.mpr (mul_neg_of_pos_of_neg hr hy)),
          mul_div_mul_left y x (ne_of_gt hr)]
    · have hx0 : x = 0 := le_antisymm (not_lt.mp hx) (not_lt.mp hx')
      subst hx0
      rw [mul_zero]
      simp only [lt_self_iff_false, if_false]
      by_cases hy : 0 < y
      · rw [if_pos (mul_pos hr hy), if_pos hy]
      · by_cases hy' : y < 0
        · rw [if_neg (not_lt.mpr (mul_neg_of_pos_of_neg hr hy').le),
            if_pos (mul_neg_of_pos_of_neg hr hy'), if_neg hy, if_pos hy']
        · have hy0 : y = 0 := le_antisymm (not_lt.mp hy) (not_lt.mp hy')
          subst hy0
          rw [mul_zero]

lemma atan2_sin_cos (θ : ℝ) (h1 : -π < θ) (h2 : θ ≤ π) :
    atan2 (Real.sin θ) (Real.cos θ) = θ := by
  have hπ := Real.pi_pos
  unfold atan2
  by_cases hc : 0 < Real.cos θ
  · rw [if_pos hc]
    have hθ1 : -(π / 2) < θ := by
      by_contra hle
      push_neg at hle
      have hnn : Real.cos θ ≤ 0 := by
        rw [← Real.cos_neg]
        exact Real.cos_nonpos_of_pi_div_two_le_of_le (by linarith) (by linarith)
      linarith
    have hθ2 : θ < π / 2 := by
      by_contra hge
      push_neg at hge
      have hnn : Real.cos θ ≤ 0 :=
        Real.cos_nonpos_of_pi_div_two_le_of_le hge (by linarith)
      linarith
    rw [← Real.tan_eq_sin_div_cos, Real.arctan_tan hθ1 hθ2]
  · by_cases hc' : Real.cos θ < 0
    · rw [if_neg hc, if_pos hc']
      by_cases hs : 0 ≤ Real.sin θ
      · rw [if_pos hs]
        have hθ1 : π / 2 < θ := by
          by_contra hle
          push_neg at hle
          have hlt : θ < -(π / 2) := by
            by_contra hge
            push_neg at hge
            have := Real.cos_nonneg_of_mem_Icc ⟨hge, hle⟩
            linarith
          have hpos : 0 < Real.sin (-θ) :=
            Real.sin_pos_of_pos_of_lt_pi (by linarith) (by linarith)
          rw [Real.sin_neg] at hpos
          linarith
        rw [← Real.tan_eq_sin_div_cos, ← Real.tan_sub_pi,
          Real.arctan_tan (by linarith) (by linarith)]
        ring
      · push_neg at hs
        rw [if_neg (not_le.mpr hs)]
        have hθ1 : θ < -(π / 2) := by
          by_contra hge
          push_neg at hge
          have hgt : π / 2 < θ := by
            by_contra hle
            push_neg at hle
            have := Real.cos_nonneg_of_mem_Icc ⟨hge, hle⟩
            linarith
          have := Real.sin_nonneg_of_nonneg_of_le_pi (by linarith : (0:ℝ) ≤ θ) h2
          linarith
        rw [← Real.tan_eq_sin_div_cos, ← Real.tan_add_pi,
          Real.arctan_tan (by linarith) (by linarith)]
        ring
    · have hc0 : Real.cos θ = 0 := le_antisymm (not_lt.mp hc) (not_lt.mp hc')
      rw [if_neg hc, if_neg hc']
      rcases Real.cos_eq_zero_iff.mp hc0 with ⟨k, hk⟩
      have hb1 : -π < (2 * (k : ℝ) + 1) * π / 2 := by rw [← hk]; exact h1
      have hb2 : (2 * (k : ℝ) + 1) * π / 2 ≤ π := by rw [← hk]; exact h2
      have hr1 : (-2 : ℝ) < 2 * (k : ℝ) + 1 := by
        by_contra hcon
        push_neg at hcon
        have : (2 * (k : ℝ) + 1) * π / 2 ≤ -π := by nlinarith
        linarith
      have hr2 : 2 * (k : ℝ) + 1 ≤ 2 := by
        by_contra hcon
        push_neg at hcon
        have : π < (2 * (k : ℝ) + 1) * π / 2 := by nlinarith
        linarith
      have hk0 : k = -1 ∨ k = 0 := by
        have i1 : (-2 : ℤ) < 2 * k + 1 := by exact_mod_cast hr1
        have i2 : (2 * k + 1 : ℤ) ≤ 2 := by exact_mod_cast hr2
        omega
      rcases hk0 with hke | hke
      · subst hke
        have hθ : θ = -(π / 2) := by
          rw [hk]
          push_cast
          ring
        subst hθ
        rw [Real.sin_neg, Real.sin_pi_div_two]
        norm_num
      · subst hke
        have hθ : θ = π / 2 := by
          rw [hk]
          push_cast
          ring
        subst hθ
        rw [Real.sin_pi_div_two]
        norm_num

end RotationController

namespace RotationController

/-! ## C9 support: matrix entries of the Euler-built quaternion -/

lemma sin_half_double (A : ℝ) :
    Real.sin A = 2 * Real.sin (A / 2) * Real.cos (A / 2) := by
  have h := Real.sin_two_mul (A / 2)
  rw [show 2 * (A / 2) = A by ring] at h
  exact h

lemma cos_half_double (A : ℝ) :
    Real.cos A = Real.cos (A / 2) ^ 2 - Real.sin (A / 2) ^ 2 := by
  have h := Real.cos_two_mul' (A / 2)
  rw [show 2 * (A / 2) = A by ring] at h
  exact h

lemma m13_euler (X Y Z : ℝ) :
    m13 (quatFromEulerXYZ X Y Z) = Real.sin Y := by
  have p1 := Real.sin_sq_add_cos_sq (X / 2)
  have p3 := Real.sin_sq_add_cos_sq (Z / 2)
  simp only [m13, quatFromEulerXYZ]
  rw [sin_half_double Y]
  linear_combination (2 * Real.sin (Y / 2) * Real.cos (Y / 2) *
    (Real.sin (Z / 2) ^ 2 + Real.cos (Z / 2) ^ 2)) * p1 +
    (2 * Real.sin (Y / 2) * Real.cos (Y / 2)) * p3

lemma m23_euler (X Y Z : ℝ) :
    m23 (quatFromEulerXYZ X Y Z) = -(Real.sin X * Real.cos Y) := by
  have p3 := Real.sin_sq_add_cos_sq (Z / 2)
  simp only [m23, quatFromEulerXYZ]
  rw [sin_half_double X, cos_half_double Y]
  linear_combination (2 * Real.sin (X / 2) * Real.cos (X / 2) *
    (Real.sin (Y / 2) ^ 2 - Real.cos (Y / 2) ^ 2)) * p3

lemma m33_euler (X Y Z : ℝ) :
    m33 (quatFromEulerXYZ X Y Z) = Real.cos X * Real.cos Y := by
  have p1 := Real.sin_sq_add_cos_sq (X / 2)
  have p2 := Real.sin_sq_add_cos_sq (Y / 2)
  have p3 := Real.sin_sq_add_cos_sq (Z / 2)
  simp only [m33, quatFromEulerXYZ]
  rw [cos_half_double X, cos_half_double Y]
  linear_combination (-(Real.sin (Y / 2) ^ 2 + Real.cos (Y / 2) ^ 2)) * p1 +
    (-1 : ℝ) * p2 +
    (-2 * (Real.sin (X / 2) ^ 2 * Real.cos (Y / 2) ^ 2 +
      Real.cos (X / 2) ^ 2 * Real.sin (Y / 2) ^ 2)) * p3

lemma m12_euler (X Y Z : ℝ) :
    m12 (quatFromEulerXYZ X Y Z) = -(Real.cos Y * Real.sin Z) := by
  have p1 := Real.sin_sq_add_cos_sq (X / 2)
  simp only [m12, quatFromEulerXYZ]
  rw [cos_half_double Y, sin_half_double Z]
  linear_combination (2 * Real.sin (Z / 2) * Real.cos (Z / 2) *
    (Real.sin (Y / 2) ^ 2 - Real.cos (Y / 2) ^ 2)) * p1

lemma m11_euler (X Y Z : ℝ) :
    m11 (quatFromEulerXYZ X Y Z) = Real.cos Y * Real.cos Z := by
  have p1 := Real.sin_sq_add_cos_sq (X / 2)
  have p2 := Real.sin_sq_add_cos_sq (Y / 2)
  have p3 := Real.sin_sq_add_cos_sq (Z / 2)
  simp only [m11, quatFromEulerXYZ]
  rw [cos_half_double Y, cos_half_double Z]
  linear_combination (-2 * (Real.sin (Y / 2) ^ 2 * Real.cos (Z / 2) ^ 2 +
      Real.cos (Y / 2) ^ 2 * Real.sin (Z / 2) ^ 2)) * p1 +
    (-(Real.sin (Z / 2) ^ 2 + Real.cos (Z / 2) ^ 2)) * p2 +
    (-1 : ℝ) * p3

end RotationController

namespace RotationController

/-! ## C9: Euler set/get round trip -/

lemma clamp1_sin (t : ℝ) : clamp1 (Real.sin t) = Real.sin t := by
  unfold clamp1
  rw [min_eq_right (Real.sin_le_one t), max_eq_right (Real.neg_one_le_sin t)]

lemma radToDeg_degToRad (a : ℝ) : radToDeg (degToRad a) = a := by
  unfold radToDeg degToRad
  have hπ := Real.pi_ne_zero
  field_simp

lemma eulerXYZ_roundtrip (X Y Z : ℝ)
    (hX1 : -π < X) (hX2 : X ≤ π)
    (hZ1 : -π < Z) (hZ2 : Z ≤ π)
    (hY1 : -(π / 2) < Y) (hY2 : Y < π / 2)
    (hsY : |Real.sin Y| < 0.9999999) :
    eulerXYZFromQuat (quatFromEulerXYZ X Y Z) = (X, Y, Z) := by
  have hcY : 0 < Real.cos Y := Real.cos_pos_of_mem_Ioo ⟨hY1, hY2⟩
  unfold eulerXYZFromQuat
  rw [m13_euler, m23_euler, m33_euler, m12_euler, m11_euler]
  rw [if_pos hsY]
  have hx : atan2 (-(-(Real.sin X * Real.cos Y))) (Real.cos X * Real.cos Y) = X := by
    rw [neg_neg,
      show Real.sin X * Real.cos Y = Real.cos Y * Real.sin X by ring,
      show Real.cos X * Real.cos Y = Real.cos Y * Real.cos X by ring,
      atan2_smul (Real.cos Y) (Real.sin X) (Real.cos X) hcY,
      atan2_sin_cos X hX1 hX2]
  have hz : atan2 (-(-(Real.cos Y * Real.sin Z))) (Real.cos Y * Real.cos Z) = Z := by
    rw [neg_neg,
      atan2_smul (Real.cos Y) (Real.sin Z) (Real.cos Z) hcY,
      atan2_sin_cos Z hZ1 hZ2]
  rw [hx, hz, clamp1_sin, Real.arcsin_sin hY1.le hY2.le]

/-- C9 (amended): for Euler angles in degrees with `x, z ∈ (-180, 180]` and
`y` strictly inside the gimbal-lock-free band — `y ∈ (-90, 90)` with
`|sin(y·π/180)|` below the extraction code's `0.9999999` cutoff (e.g.
`x=30, y=45, z=60`) — `setRotationEuler(x,y,z)` followed by
`getRotationEuler()` returns exactly `(x, y, z)`; `setRotationEuler` writes
the constructed orientation to the target, the current orientation, and the
drag-start snapshot (and `getRotationEuler` is a pure read, embedded as a
function of the state with no state output).  Outside the principal range
the round trip fails (see the counterexample at `x = 270`). -/
theorem C9_euler_roundtrip_amended (s : State) (x y z : ℝ)
    (hx1 : -180 < x) (hx2 : x ≤ 180)
    (hz1 : -180 < z) (hz2 : z ≤ 180)
    (hy1 : -90 < y) (hy2 : y < 90)
    (hsy : |Real.sin (degToRad y)| < 0.9999999) :
    getRotationEuler (setRotationEuler s x y z) = (x, y, z) ∧
    (setRotationEuler s x y z).modelQuaternion =
      quatFromEulerXYZ (degToRad x) (degToRad y) (degToRad z) ∧
    (setRotationEuler s x y z).quaternion = (setRotationEuler s x y z).modelQuaternion ∧
    (setRotationEuler s x y z).quaternionTouchDown =
      (setRotationEuler s x y z).modelQuaternion := by
  have hπ := Real.pi_pos
  have hX1 : -π < degToRad x := by
    unfold degToRad
    nlinarith [mul_pos (by linarith : (0 : ℝ) < x + 180) (by positivity : (0 : ℝ) < π / 180)]
  have hX2 : degToRad x ≤ π := by
    unfold degToRad
    nlinarith [mul_nonneg (by linarith : (0 : ℝ) ≤ 180 - x) (by positivity : (0 : ℝ) ≤ π / 180)]
  have hZ1 : -π < degToRad z := by
    unfold degToRad
    nlinarith [mul_pos (by linarith : (0 : ℝ) < z + 180) (by positivity : (0 : ℝ) < π / 180)]
  have hZ2 : degToRad z ≤ π := by
    unfold degToRad
    nlinarith [mul_nonneg (by linarith : (0 : ℝ) ≤ 180 - z) (by positivity : (0 : ℝ) ≤ π / 180)]
  have hY1 : -(π / 2) < degToRad y := by
    unfold degToRad
    nlinarith [mul_pos (by linarith : (0 : ℝ) < y + 90) (by positivity : (0 : ℝ) < π / 180)]
  have hY2 : degToRad y < π / 2 := by
    unfold degToRad
    nlinarith [mul_pos (by linarith : (0 : ℝ) < 90 - y) (by positivity : (0 : ℝ) < π / 180)]
  refine ⟨?_, rfl, rfl, rfl⟩
  show (radToDeg (eulerXYZFromQuat
      (quatFromEulerXYZ (degToRad x) (degToRad y) (degToRad z))).1,
    radToDeg (eulerXYZFromQuat
      (quatFromEulerXYZ (degToRad x) (degToRad y) (degToRad z))).2.1,
    radToDeg (eulerXYZFromQuat
      (quatFromEulerXYZ (degToRad x) (degToRad y) (degToRad z))).2.2) = (x, y, z)
  rw [eulerXYZ_roundtrip (degToRad x) (degToRad y) (degToRad z)
    hX1 hX2 hZ1 hZ2 hY1 hY2 hsy]
  simp only [radToDeg_degToRad]

/-- Witness for C9 (amended) at the spec's example `x=30, y=45, z=60`. -/
theorem C9_euler_roundtrip_amended_witness :
    |Real.sin (degToRad 45)| < 0.9999999 ∧
    getRotationEuler (setRotationEuler demoS0 30 45 60) = (30, 45, 60) := by
  have h2 : Real.sqrt 2 < 1.5 := by
    have h := Real.sqrt_lt_sqrt (by norm_num : (0 : ℝ) ≤ 2) (by norm_num : (2 : ℝ) < 2.25)
    rwa [show (2.25 : ℝ) = 1.5 ^ 2 by norm_num,
      Real.sqrt_sq (by norm_num : (0 : ℝ) ≤ 1.5)] at h
  have hsy : |Real.sin (degToRad 45)| < 0.9999999 := by
    rw [show degToRad 45 = π / 4 from by unfold degToRad; ring,
      Real.sin_pi_div_four, abs_of_nonneg (by positivity)]
    linarith
  exact ⟨hsy, (C9_euler_roundtrip_amended demoS0 30 45 60 (by norm_num) (by norm_num)
    (by norm_num) (by norm_num) (by norm_num) (by norm_num) hsy).1⟩

end RotationController

namespace RotationController

lemma degToRad_zero : degToRad 0 = 0 := by
  unfold degToRad
  ring

lemma degToRad_270 : degToRad 270 = π + π / 2 := by
  unfold degToRad
  ring

lemma sin_degToRad_270 : Real.sin (degToRad 270) = -1 := by
  rw [degToRad_270, Real.sin_add, Real.sin_pi, Real.cos_pi, Real.sin_pi_div_two,
    Real.cos_pi_div_two]
  norm_num

lemma cos_degToRad_270 : Real.cos (degToRad 270) = 0 := by
  rw [degToRad_270, Real.cos_add, Real.sin_pi, Real.cos_pi, Real.sin_pi_div_two,
    Real.cos_pi_div_two]
  norm_num

lemma euler_270_eval :
    eulerXYZFromQuat (quatFromEulerXYZ (degToRad 270) (degToRad 0) (degToRad 0)) =
      (-(π / 2), 0, 0) := by
  have hm13 := m13_euler (degToRad 270) (degToRad 0) (degToRad 0)
  have hm23 := m23_euler (degToRad 270) (degToRad 0) (degToRad 0)
  have hm33 := m33_euler (degToRad 270) (degToRad 0) (degToRad 0)
  have hm12 := m12_euler (degToRad 270) (degToRad 0) (degToRad 0)
  have hm11 := m11_euler (degToRad 270) (degToRad 0) (degToRad 0)
  rw [degToRad_zero]
  simp only [degToRad_zero, Real.sin_zero, Real.cos_zero] at hm13 hm23 hm33 hm12 hm11
  rw [sin_degToRad_270] at hm23
  rw [cos_degToRad_270] at hm33
  unfold eulerXYZFromQuat
  rw [hm13, hm23, hm33, hm12, hm11]
  rw [if_pos (by rw [abs_zero]; norm_num : |(0 : ℝ)| < 0.9999999)]
  have hx : atan2 (-(-(-1 * 1))) ((0 : ℝ) * 1) = -(π / 2) := by
    rw [show (-(-(-1 * 1)) : ℝ) = -1 by norm_num, zero_mul]
    unfold atan2
    norm_num
  have hz : atan2 (-(-((1 : ℝ) * 0))) ((1 : ℝ) * 1) = 0 := by
    rw [show (-(-((1 : ℝ) * 0)) : ℝ) = 0 by norm_num, one_mul]
    unfold atan2
    rw [if_pos (by norm_num : (0 : ℝ) < 1)]
    norm_num [Real.arctan_zero]
  rw [hx, hz, clamp1_zero, Real.arcsin_zero]

lemma radToDeg_zero : radToDeg 0 = 0 := by
  unfold radToDeg
  ring

lemma radToDeg_neg_pi_half : radToDeg (-(π / 2)) = -90 := by
  unfold radToDeg
  have hπ := Real.pi_ne_zero
  field_simp
  ring

/-- C9 counterexample: `(x, y, z) = (270, 0, 0)` is not a gimbal-lock
configuration of the `XYZ` order (`y = 0`), yet
`setRotationEuler(270, 0, 0)` followed by `getRotationEuler()` returns
`(-90, 0, 0)` — the same rotation expressed in the principal range, not the
original triple — so the claim's round trip fails outside `(-180, 180]`. -/
theorem C9_euler_roundtrip_counterexample :
    getRotationEuler (setRotationEuler demoS0 270 0 0) = (-90, 0, 0) ∧
    ((-90 : ℝ), (0 : ℝ), (0 : ℝ)) ≠ ((270 : ℝ), (0 : ℝ), (0 : ℝ)) := by
  constructor
  · show (radToDeg (eulerXYZFromQuat
        (quatFromEulerXYZ (degToRad 270) (degToRad 0) (degToRad 0))).1,
      radToDeg (eulerXYZFromQuat
        (quatFromEulerXYZ (degToRad 270) (degToRad 0) (degToRad 0))).2.1,
      radToDeg (eulerXYZFromQuat
        (quatFromEulerXYZ (degToRad 270) (degToRad 0) (degToRad 0))).2.2) = _
    rw [euler_270_eval]
    show (radToDeg (-(π / 2)), radToDeg 0, radToDeg 0) = _
    rw [radToDeg_zero, radToDeg_neg_pi_half]
  · simp only [ne_eq, Prod.mk.injEq, not_and]
    intro h
    norm_num at h

end RotationController
